import Mathlib

/-!
Verification of the counter resource-handle component of the aeron client
(src/aeron-client/src/main/c/aeron_counter.c), a shallow embedding of
aeron_counter_create, aeron_counter_delete and aeron_counter_close together
with spec-modelled fragments for the collaborators that are declared
elsewhere in the repository (the client conductor, the allocator and the
error sink).
-/

namespace AeronCounter

/-- The client managed resource type tag stored in command_base.type.
The header defining the enum is not under src/; the counter constructor is
the one the visible code uses (AERON_CLIENT_TYPE_COUNTER). -/
inductive AeronClientType where
  | publication
  | subscription
  | counter
  deriving DecidableEq, Repr

/-- The aeron_counter_t struct, with the fields the visible code assigns:
command_base.type, counter_addr (the shared address, modelled as a numeric
address), conductor (back-reference, modelled as a numeric id),
registration_id (int64_t), counter_id (the driver-assigned id, int32_t) and
is_closed. -/
structure aeron_counter_t where
  command_base_type : AeronClientType
  counter_addr : Nat
  conductor : Nat
  registration_id : Int
  counter_id : Int
  is_closed : Bool
  deriving DecidableEq, Repr

/-- Opcode of a command submitted to the conductor's command channel
(spec section 3: Command). -/
inductive AeronCommandOpcode where
  | AddCounter
  | RemoveCounter
  deriving DecidableEq, Repr

/-- A command as it sits in the command channel: opcode plus the
registration id it concerns. -/
structure AeronCommand where
  opcode : AeronCommandOpcode
  registration_id : Int
  deriving DecidableEq, Repr

/-- The observable state of the conductor relevant to these claims: the
contents of the command channel carrying close requests to the driver. -/
structure ConductorState where
  command_channel : List AeronCommand
  deriving DecidableEq, Repr

/-- The global error sink written by aeron_set_err (util/aeron_error.c, not
under src/): the last error code and its formatted description. -/
structure AeronErrState where
  code : Int
  msg : String
  deriving DecidableEq, Repr

/-- The allocation environment: whether aeron_alloc (util/aeron_alloc.c, not
under src/) succeeds on this call, the errno value it leaves on failure, and
the C library strerror mapping from error codes to descriptions. -/
structure AllocEnv where
  alloc_ok : Bool
  errno_val : Int
  strerror_of : Int → String

/-- The message aeron_set_err formats on the allocation-failure path of
aeron_counter_create: the format string is
"aeron_counter_create (%d): %s" applied to errno and strerror(errno). -/
def aeron_counter_create_err_msg (errcode : Int) (desc : String) : String :=
  "aeron_counter_create (" ++ toString errcode ++ "): " ++ desc

/-- aeron_counter_create from src/aeron-client/src/main/c/aeron_counter.c.
The C function writes NULL to the out-parameter, attempts the allocation,
and on failure records errno with a formatted message through aeron_set_err
and returns -1; on success it fills in every field of the struct, stores the
struct in the out-parameter and returns 0. The out-parameter's final value
is the middle component; the error sink is threaded explicitly (err is its
value before the call). -/
def aeron_counter_create (env : AllocEnv) (err : Option AeronErrState)
    (conductor : Nat) (registration_id : Int) (counter_id : Int)
    (counter_addr : Nat) :
    Int × Option aeron_counter_t × Option AeronErrState :=
  if env.alloc_ok then
    (0,
     some { command_base_type := AeronClientType.counter,
            counter_addr := counter_addr,
            conductor := conductor,
            registration_id := registration_id,
            counter_id := counter_id,
            is_closed := false },
     err)
  else
    let errcode := env.errno_val
    (-1, none,
     some { code := errcode,
            msg := aeron_counter_create_err_msg errcode (env.strerror_of errcode) })

/-- A heap of allocated counter structs, as an association list from
addresses to their contents; a counter pointer is an Option Nat with none
for NULL. -/
structure Heap where
  cells : List (Nat × aeron_counter_t)
  deriving DecidableEq, Repr

/-- Whether the cell at address a is still allocated, and with what value. -/
def Heap.lookup (h : Heap) (a : Nat) : Option aeron_counter_t :=
  (h.cells.find? (fun p => p.1 == a)).map Prod.snd

/-- Modelled from the spec: aeron_free (util/aeron_alloc.c, not under src/)
wraps the C library free, which releases the pointed-to allocation
unconditionally and is a defined no-op on a null pointer. -/
def aeron_free (h : Heap) (ptr : Option Nat) : Heap :=
  match ptr with
  | none => h
  | some a => { cells := h.cells.filter (fun p => p.1 != a) }

/-- aeron_counter_delete from the source: calls aeron_free on the handle and
returns 0, with no check of any kind. -/
def aeron_counter_delete (h : Heap) (counter : Option Nat) : Int × Heap :=
  (0, aeron_free h counter)

/-- Modelled from the spec: aeron_client_conductor_async_close_counter lives
in aeron_client_conductor.c, which is not under src/. Per the spec (section
4.1), it atomically transitions the handle from Active to CloseRequested and
submits one asynchronous close (RemoveCounter) request for the handle's
registration id into the command channel, returning as soon as the request
is accepted; if the handle is already beyond Active it returns Ok (0) as a
no-op with no submission. The handle's being beyond Active is recorded in
its is_closed flag (the isClosed accessor of the spec). -/
def aeron_client_conductor_async_close_counter
    (st : ConductorState) (c : aeron_counter_t) :
    Int × ConductorState × aeron_counter_t :=
  if c.is_closed then
    (0, st, c)
  else
    (0,
     { command_channel := st.command_channel ++
        [{ opcode := AeronCommandOpcode.RemoveCounter,
           registration_id := c.registration_id }] },
     { c with is_closed := true })

/-- aeron_counter_close from the source: for a non-null handle it returns
exactly the result of aeron_client_conductor_async_close_counter on the
handle's conductor and the handle; for NULL it returns 0 and does nothing. -/
def aeron_counter_close (st : ConductorState)
    (counter : Option aeron_counter_t) :
    Int × ConductorState × Option aeron_counter_t :=
  match counter with
  | some c =>
    let r := aeron_client_conductor_async_close_counter st c
    (r.1, r.2.1, some r.2.2)
  | none => (0, st, none)

/-- A sample conductor state with an empty command channel, for witnesses. -/
def emptyConductor : ConductorState := { command_channel := [] }

/-- A sample open counter handle, for witnesses. -/
def sampleCounter : aeron_counter_t :=
  { command_base_type := AeronClientType.counter,
    counter_addr := 100,
    conductor := 1,
    registration_id := 42,
    counter_id := 7,
    is_closed := false }

/-- A sample allocation environment whose allocation succeeds. -/
def sampleEnvOk : AllocEnv :=
  { alloc_ok := true, errno_val := 0, strerror_of := fun _ => "Success" }

/-- A sample allocation environment whose allocation fails with ENOMEM. -/
def sampleEnvFail : AllocEnv :=
  { alloc_ok := false, errno_val := 12,
    strerror_of := fun _ => "Cannot allocate memory" }

/-- Helper: after filtering out every cell at address a, no cell at address a
can be found. -/
theorem find_filter_self_none (l : List (Nat × aeron_counter_t)) (a : Nat) :
    (l.filter (fun p => p.1 != a)).find? (fun p => p.1 == a) = none := by
  induction l with
  | nil => rfl
  | cons x xs ih =>
    by_cases hx : x.1 = a
    · have h1 : (x.1 != a) = false := by simp [hx]
      simp only [List.filter_cons, h1, Bool.false_eq_true, if_false]
      exact ih
    · have h1 : (x.1 != a) = true := by simp [hx]
      have h2 : (x.1 == a) = false := by simp [hx]
      simp only [List.filter_cons, h1, if_true, List.find?, h2]
      exact ih

/-- Helper: filtering out every cell at address a does not change which cell
is found at a different address b. -/
theorem find_filter_other (l : List (Nat × aeron_counter_t)) (a b : Nat)
    (hba : b ≠ a) :
    (l.filter (fun p => p.1 != a)).find? (fun p => p.1 == b) =
      l.find? (fun p => p.1 == b) := by
  induction l with
  | nil => rfl
  | cons x xs ih =>
    by_cases hx : x.1 = a
    · have h1 : (x.1 != a) = false := by simp [hx]
      have h2 : (x.1 == b) = false := by
        simp only [beq_eq_false_iff_ne, ne_eq, hx]
        exact Ne.symm hba
      simp only [List.filter_cons, h1, Bool.false_eq_true, if_false, ih,
        List.find?, h2]
    · have h1 : (x.1 != a) = true := by simp [hx]
      simp only [List.filter_cons, h1, if_true, List.find?]
      by_cases hxb : x.1 = b
      · have h2 : (x.1 == b) = true := by simp [hxb]
        simp only [h2]
      · have h2 : (x.1 == b) = false := by simp [hxb]
        simp only [h2]
        exact ih

/-- C1: close is idempotent. Starting from an open handle, the first close
returns 0 and appends exactly one RemoveCounter command for the handle's
registration id to the command channel; a second close on the resulting
already-close-requested handle returns 0 again and changes neither the
channel nor the handle, so exactly one close command reaches the driver. -/
theorem aeron_counter_close_idempotent
    (st : ConductorState) (c : aeron_counter_t) (h : c.is_closed = false) :
    (aeron_counter_close st (some c)).1 = 0 ∧
    (aeron_counter_close st (some c)).2.1.command_channel =
      st.command_channel ++
        [{ opcode := AeronCommandOpcode.RemoveCounter,
           registration_id := c.registration_id }] ∧
    (aeron_counter_close (aeron_counter_close st (some c)).2.1
        (aeron_counter_close st (some c)).2.2) =
      (0, (aeron_counter_close st (some c)).2.1,
          (aeron_counter_close st (some c)).2.2) := by
  simp [aeron_counter_close, aeron_client_conductor_async_close_counter, h]

/-- C1 witness: the idempotence theorem evaluated on a concrete open handle
and an empty command channel. -/
theorem aeron_counter_close_idempotent_witness :
    (aeron_counter_close emptyConductor (some sampleCounter)).1 = 0 ∧
    (aeron_counter_close emptyConductor (some sampleCounter)).2.1.command_channel =
      emptyConductor.command_channel ++
        [{ opcode := AeronCommandOpcode.RemoveCounter,
           registration_id := sampleCounter.registration_id }] ∧
    (aeron_counter_close
        (aeron_counter_close emptyConductor (some sampleCounter)).2.1
        (aeron_counter_close emptyConductor (some sampleCounter)).2.2) =
      (0, (aeron_counter_close emptyConductor (some sampleCounter)).2.1,
          (aeron_counter_close emptyConductor (some sampleCounter)).2.2) :=
  aeron_counter_close_idempotent emptyConductor sampleCounter rfl

/-- C2: closing a NULL handle returns 0 immediately, with the conductor
state (in particular the command channel) unchanged and no handle touched. -/
theorem aeron_counter_close_null (st : ConductorState) :
    aeron_counter_close st none = (0, st, none) := rfl

/-- C3: whenever allocation succeeds, create returns 0 and the out-parameter
holds a handle carrying exactly the given registration id, driver-assigned
counter id, shared address and conductor reference, with is_closed = false;
the error sink is untouched. -/
theorem aeron_counter_create_success
    (env : AllocEnv) (err : Option AeronErrState) (conductor : Nat)
    (registration_id counter_id : Int) (counter_addr : Nat)
    (h : env.alloc_ok = true) :
    aeron_counter_create env err conductor registration_id counter_id
        counter_addr =
      (0,
       some { command_base_type := AeronClientType.counter,
              counter_addr := counter_addr,
              conductor := conductor,
              registration_id := registration_id,
              counter_id := counter_id,
              is_closed := false },
       err) := by
  simp [aeron_counter_create, h]

/-- C3 witness: creating with registrationId = 42, driverAssignedId = 7 and
address 100 yields return value 0 and a handle with counter_id = 7 and
is_closed = false. -/
theorem aeron_counter_create_success_witness :
    aeron_counter_create sampleEnvOk none 1 42 7 100 =
      (0,
       some { command_base_type := AeronClientType.counter,
              counter_addr := 100,
              conductor := 1,
              registration_id := 42,
              counter_id := 7,
              is_closed := false },
       none) :=
  aeron_counter_create_success sampleEnvOk none 1 42 7 100 rfl

/-- C4: create fails with -1 exactly when the allocation fails, and on that
path the error sink carries the errno code together with the message built
from the code and its strerror description. -/
theorem aeron_counter_create_alloc_failure
    (env : AllocEnv) (err : Option AeronErrState) (conductor : Nat)
    (registration_id counter_id : Int) (counter_addr : Nat) :
    ((aeron_counter_create env err conductor registration_id counter_id
        counter_addr).1 = -1 ↔ env.alloc_ok = false) ∧
    (env.alloc_ok = false →
      (aeron_counter_create env err conductor registration_id counter_id
          counter_addr).2.2 =
        some { code := env.errno_val,
               msg := aeron_counter_create_err_msg env.errno_val
                 (env.strerror_of env.errno_val) }) := by
  constructor
  · by_cases h : env.alloc_ok <;> simp [aeron_counter_create, h]
  · intro h
    simp [aeron_counter_create, h]

/-- C4 witness: with an environment whose allocation fails with errno 12,
create returns -1 and records code 12 with the formatted message. -/
theorem aeron_counter_create_alloc_failure_witness :
    ((aeron_counter_create sampleEnvFail none 1 42 7 100).1 = -1 ↔
      sampleEnvFail.alloc_ok = false) ∧
    (aeron_counter_create sampleEnvFail none 1 42 7 100).2.2 =
      some { code := sampleEnvFail.errno_val,
             msg := aeron_counter_create_err_msg sampleEnvFail.errno_val
               (sampleEnvFail.strerror_of sampleEnvFail.errno_val) } :=
  ⟨(aeron_counter_create_alloc_failure sampleEnvFail none 1 42 7 100).1,
   (aeron_counter_create_alloc_failure sampleEnvFail none 1 42 7 100).2 rfl⟩

/-- C5: for a non-null handle, close returns exactly the result of
submitting the asynchronous close request to the conductor, forwarding its
return value and resulting state unchanged and performing no other
computation. -/
theorem aeron_counter_close_delegates (st : ConductorState)
    (c : aeron_counter_t) :
    aeron_counter_close st (some c) =
      ((aeron_client_conductor_async_close_counter st c).1,
       (aeron_client_conductor_async_close_counter st c).2.1,
       some (aeron_client_conductor_async_close_counter st c).2.2) := rfl

/-- C6: delete returns 0 for every handle (null or not), and for a non-null
handle it releases the cell unconditionally — afterwards the address is no
longer allocated, with no check of the handle's close state. -/
theorem aeron_counter_delete_unconditional (h : Heap) (a : Nat) :
    (∀ p : Option Nat, (aeron_counter_delete h p).1 = 0) ∧
    Heap.lookup (aeron_counter_delete h (some a)).2 a = none := by
  refine ⟨fun p => ?_, ?_⟩
  · cases p <;> rfl
  · simp [aeron_counter_delete, aeron_free, Heap.lookup,
      find_filter_self_none]

/-- C7: no handle operation modifies the identifying fields. Close preserves
the driver-assigned counter id, the registration id, the shared address and
the conductor reference of the handle it returns, and delete leaves every
cell at a different address untouched; the fields are set only at
construction by create. -/
theorem aeron_counter_identity_fields_frame (st : ConductorState)
    (c : aeron_counter_t) (h : Heap) (a b : Nat) (hba : b ≠ a) :
    ((aeron_counter_close st (some c)).2.2).map
        (fun x => (x.counter_id, x.registration_id, x.counter_addr,
                   x.conductor)) =
      some (c.counter_id, c.registration_id, c.counter_addr, c.conductor) ∧
    Heap.lookup (aeron_counter_delete h (some a)).2 b = Heap.lookup h b := by
  constructor
  · by_cases hc : c.is_closed <;>
      simp [aeron_counter_close, aeron_client_conductor_async_close_counter,
        hc]
  · simp [aeron_counter_delete, aeron_free, Heap.lookup,
      find_filter_other _ _ _ hba]

/-- C7 witness: the frame theorem evaluated on a concrete handle, a
one-cell heap and the distinct addresses 5 and 6. -/
theorem aeron_counter_identity_fields_frame_witness :
    ((aeron_counter_close emptyConductor (some sampleCounter)).2.2).map
        (fun x => (x.counter_id, x.registration_id, x.counter_addr,
                   x.conductor)) =
      some (sampleCounter.counter_id, sampleCounter.registration_id,
            sampleCounter.counter_addr, sampleCounter.conductor) ∧
    Heap.lookup
        (aeron_counter_delete { cells := [(5, sampleCounter)] } (some 5)).2
        6 =
      Heap.lookup { cells := [(5, sampleCounter)] } 6 :=
  aeron_counter_identity_fields_frame emptyConductor sampleCounter
    { cells := [(5, sampleCounter)] } 5 6 (by decide)

/-- C9: whenever create returns a nonzero (failure) result, the
out-parameter is none: it was nulled before the allocation attempt and never
filled, so the caller can never observe a partially constructed handle. -/
theorem aeron_counter_create_null_on_failure
    (env : AllocEnv) (err : Option AeronErrState) (conductor : Nat)
    (registration_id counter_id : Int) (counter_addr : Nat)
    (h : (aeron_counter_create env err conductor registration_id counter_id
        counter_addr).1 ≠ 0) :
    (aeron_counter_create env err conductor registration_id counter_id
        counter_addr).2.1 = none := by
  by_cases ha : env.alloc_ok
  · exact absurd (by simp [aeron_counter_create, ha]) h
  · simp [aeron_counter_create, ha]

/-- C9 witness: with the failing allocation environment, create returns a
nonzero result and the out-parameter is none. -/
theorem aeron_counter_create_null_on_failure_witness :
    (aeron_counter_create sampleEnvFail none 1 42 7 100).2.1 = none :=
  aeron_counter_create_null_on_failure sampleEnvFail none 1 42 7 100
    (by simp [aeron_counter_create, sampleEnvFail])

/-- C10: delete applied to a NULL handle is a defined no-op that returns 0
and leaves the heap unchanged, because the underlying free accepts a null
argument. -/
theorem aeron_counter_delete_null (h : Heap) :
    aeron_counter_delete h none = (0, h) := rfl

end AeronCounter
